import Mathlib

/-!
Verification development for the adversarial bot-detection GAN repository
(three near-duplicated training scripts: `simple_gan.py`, `cgan.py`,
`conditional_gan_multi.py`).  Each Python function relevant to the claims is
shallowly embedded as a Lean definition, translated directly from the source;
theorems below settle the claims against these embeddings.
-/

/-! ## Shared data model -/

/-- The three training-script variants of the repository. -/
inductive Variant where
  | simple_gan
  | cgan
  | conditional_gan_multi
  deriving DecidableEq, Repr

/-- Serialization formats used by the repository when writing files. -/
inductive FileFormat where
  | pickle
  | joblib
  | png
  | torch_save
  deriving DecidableEq, Repr

/-- A single file-write effect: destination path and serialization format. -/
structure FileWrite where
  path : String
  fmt : FileFormat
  deriving DecidableEq, Repr

/-! ## Scaler persistence paths (claim C2)

`prepare_data` of each variant stores the fitted `MinMaxScaler` with
`joblib.dump(scaler, scaler_filename)`; `generate_synthetic_samples` of each
variant loads a scaler with `joblib.load(...)`.  The paths are string
literals in the source. -/

/-- Path at which each variant's `prepare_data` stores its fitted scaler
(`simple_gan.py` line 99, `cgan.py` line 110, `conditional_gan_multi.py`
line 99). -/
def scaler_store_path : Variant → String
  | .simple_gan => "simple_gan/scaler.save"
  | .cgan => "conditional_gan/scaler.save"
  | .conditional_gan_multi => "conditional_gan_multi/scaler.save"

/-- Path from which each variant's `generate_synthetic_samples` loads the
scaler used to inverse-transform generated samples (`simple_gan.py` line 266,
`cgan.py` line 280, `conditional_gan_multi.py` line 268). -/
def scaler_load_path : Variant → String
  | .simple_gan => "simple_gan/scaler.save"
  | .cgan => "conditional_gan/scaler.save"
  | .conditional_gan_multi => "conditional_gan/scaler.save"

/-! ## Label handling in the simple GAN (claim C6) -/

namespace SimpleGan

/-- A row of the tabular account dataset, as far as label filtering is
concerned: its original string label together with its feature values. -/
structure Row where
  label : String
  features : List ℚ
  deriving DecidableEq

/-- Embedding of `df['label'].map({'human': 0, 'bot': 1, 'cyborg': 1})`
(`simple_gan.py` line 69): pandas `Series.map` with a dict sends keys absent
from the dict to NaN, modelled as `none`. -/
def label_map (s : String) : Option ℕ :=
  if s = "human" then some 0
  else if s = "bot" then some 1
  else if s = "cyborg" then some 1
  else none

/-- Embedding of the row filter in `prepare_data` (`simple_gan.py` lines
80-85): with `bots=True` it keeps the training rows whose mapped label
equals 1 (`df[df['label'] == 1]`), otherwise those whose mapped label equals
0; a NaN label compares unequal to both. -/
def filter_training_rows (rows : List Row) (bots : Bool) : List Row :=
  rows.filter (fun r => label_map r.label == (if bots then some 1 else some 0))

end SimpleGan

/-! ## Latent-noise sampling (claim C7)

Every noise draw in the repository is literally
`(torch.rand(..., 128) - 0.5) / 0.5`, where `torch.rand` samples uniformly
from the half-open interval from 0 to 1. -/

/-- Embedding of the componentwise transform `(u - 0.5) / 0.5` applied to a
uniform sample `u` (e.g. `simple_gan.py` lines 161, 184, 255; `cgan.py`
lines 173, 199, 261; `conditional_gan_multi.py` lines 164, 190, 252). -/
def noise_component (u : ℚ) : ℚ :=
  (u - 1/2) / (1/2)

/-- A 128-component latent noise vector built from a uniform sample vector. -/
def noise_vector (u : Fin 128 → ℚ) : Fin 128 → ℚ :=
  fun i => noise_component (u i)

/-! ## Class-label draws at generation time (claim C8)

`torch.randint(lo, hi, shape)` draws integers `k` with `lo ≤ k < hi`. -/

/-- The predicate satisfied by any value produced by `torch.randint(lo, hi, _)`. -/
def randint_draw (lo hi k : ℕ) : Prop :=
  lo ≤ k ∧ k < hi

instance (lo hi k : ℕ) : Decidable (randint_draw lo hi k) := by
  unfold randint_draw; infer_instance

/-- Bounds of the `torch.randint` call that draws class labels in the binary
conditional GAN's `generate_synthetic_samples` (`cgan.py` lines 264-268):
`(1, num_of_classes)` when `bots` is true, `(0, num_of_classes - 1)`
otherwise. -/
def cgan_label_bounds (bots : Bool) (num_of_classes : ℕ) : ℕ × ℕ :=
  if bots then (1, num_of_classes) else (0, num_of_classes - 1)

/-- Bounds of the `torch.randint(label, label + 1, _)` call drawing class
labels in the multiclass variant's `generate_synthetic_samples`
(`conditional_gan_multi.py` line 256). -/
def multi_label_bounds (label : ℕ) : ℕ × ℕ :=
  (label, label + 1)

/-! ## File-write traces (claim C3)

Each definition lists, in program order, the file writes performed by one
function of the source, including those of the functions it calls. -/

namespace SimpleGan

/-- Writes of `simple_gan.prepare_data` (lines 75 and 100): the pickled 20%
test split and the joblib-serialized fitted scaler. -/
def prepare_data_writes : List FileWrite :=
  [⟨"simple_gan/test_data", .pickle⟩, ⟨"simple_gan/scaler.save", .joblib⟩]

/-- Writes of `simple_gan.train_gan` (lines 129, 218, 226, 230-233): the
writes of `prepare_data`, two PNG plots, and the torch-saved generator whose
path depends on `bots`. -/
def train_gan_writes (bots : Bool) : List FileWrite :=
  prepare_data_writes ++
    [⟨"simple_gan/gan_loss.png", .png⟩,
     ⟨"simple_gan/discriminator_acc.png", .png⟩,
     ⟨if bots then "simple_gan/Bot_Generator_save.pth"
       else "simple_gan/Human_Generator_save.pth", .torch_save⟩]

/-- Writes of `simple_gan.generate_synthetic_samples` (lines 246, 273-276):
the writes of `prepare_data` and the pickled synthetic dataset. -/
def generate_synthetic_samples_writes (num_of_samples : ℕ) (bots : Bool) :
    List FileWrite :=
  prepare_data_writes ++
    [⟨(if bots then "simple_gan/synthetic_bot_data_"
        else "simple_gan/synthetic_human_data_") ++ toString num_of_samples,
      .pickle⟩]

end SimpleGan

namespace CGan

/-- Writes of `cgan.prepare_data` (line 111): the joblib-serialized scaler. -/
def prepare_data_writes : List FileWrite :=
  [⟨"conditional_gan/scaler.save", .joblib⟩]

/-- Writes of `cgan.train_gan` (lines 140, 233, 241, 244): the writes of
`prepare_data`, two PNG plots, and the torch-saved conditional generator. -/
def train_gan_writes : List FileWrite :=
  prepare_data_writes ++
    [⟨"conditional_gan/cond_gan_loss.png", .png⟩,
     ⟨"conditional_gan/cond_discriminator_acc.png", .png⟩,
     ⟨"conditional_gan/Conditional_Generator_save.pth", .torch_save⟩]

/-- Writes of `cgan.generate_synthetic_samples` (line 257): only those of
`prepare_data`, which it calls. -/
def generate_synthetic_samples_writes : List FileWrite :=
  prepare_data_writes

/-- Writes of `cgan.create_final_synthetic_dataset` (lines 295-310): two
generation runs followed by the pickled final synthetic dataset. -/
def create_final_synthetic_dataset_writes (t : Bool) : List FileWrite :=
  generate_synthetic_samples_writes ++ generate_synthetic_samples_writes ++
    [⟨if t then "../data/synthetic_data/conditional_gan/synthetic_binary_test_data"
       else "../data/synthetic_data/conditional_gan/synthetic_binary_train_data",
      .pickle⟩]

end CGan

namespace CGanMulti

/-- Writes of `conditional_gan_multi.prepare_data` (line 100): the
joblib-serialized scaler. -/
def prepare_data_writes : List FileWrite :=
  [⟨"conditional_gan_multi/scaler.save", .joblib⟩]

/-- Writes of `conditional_gan_multi.train_gan` (lines 131, 224, 232, 235):
the writes of `prepare_data`, two PNG plots, and the torch-saved conditional
generator. -/
def train_gan_writes : List FileWrite :=
  prepare_data_writes ++
    [⟨"conditional_gan_multi/cond_gan_loss.png", .png⟩,
     ⟨"conditional_gan_multi/cond_discriminator_acc.png", .png⟩,
     ⟨"conditional_gan_multi/Conditional_Generator_save.pth", .torch_save⟩]

/-- Writes of `conditional_gan_multi.generate_synthetic_samples` (line 248):
only those of `prepare_data`, which it calls. -/
def generate_synthetic_samples_writes : List FileWrite :=
  prepare_data_writes

/-- Writes of `conditional_gan_multi.generate_samples_to_reach_30K_per_class`
(lines 295-310): six generation runs followed by the pickled balanced
synthetic dataset. -/
def generate_samples_to_reach_30K_per_class_writes : List FileWrite :=
  generate_synthetic_samples_writes ++ generate_synthetic_samples_writes ++
    generate_synthetic_samples_writes ++ generate_synthetic_samples_writes ++
    generate_synthetic_samples_writes ++ generate_synthetic_samples_writes ++
    [⟨"../data/synthetic_data/conditional_gan_multiclass/synthetic_data_30K_per_class_norm",
      .pickle⟩]

end CGanMulti

/-! ## Error flow (claim C5)

The repository contains no `try`/`except`: every script runs its steps in
sequence — load and scale data inside `prepare_data`, then training,
generation and evaluation at module level — so an exception raised by any
step propagates unchanged and the following steps never run.  The sequencing
is embedded in the `Except` monad. -/

namespace ErrorFlow

variable {E α β γ δ ε : Type}

/-- Embedding of the sequential pipeline of a script: data loading, scaling
(`prepare_data`), training (`train_gan`), generation
(`generate_synthetic_samples`), evaluation (`evaluate_synthetic_data`), each
step fallible, sequenced with no handler in between. -/
def script_flow (load_data : Except E α) (scale_data : α → Except E β)
    (train_step : β → Except E γ) (generate_step : γ → Except E δ)
    (evaluate_step : δ → Except E ε) : Except E ε := do
  let a ← load_data
  let b ← scale_data a
  let c ← train_step b
  let d ← generate_step c
  evaluate_step d

/-- The proposition that the first failing step of the pipeline fails with
error `e` (every earlier step succeeded). -/
def fails_first (load_data : Except E α) (scale_data : α → Except E β)
    (train_step : β → Except E γ) (generate_step : γ → Except E δ)
    (evaluate_step : δ → Except E ε) (e : E) : Prop :=
  load_data = .error e ∨
  (∃ a, load_data = .ok a ∧ scale_data a = .error e) ∨
  (∃ a b, load_data = .ok a ∧ scale_data a = .ok b ∧ train_step b = .error e) ∨
  (∃ a b c, load_data = .ok a ∧ scale_data a = .ok b ∧ train_step b = .ok c ∧
    generate_step c = .error e) ∨
  (∃ a b c d, load_data = .ok a ∧ scale_data a = .ok b ∧ train_step b = .ok c ∧
    generate_step c = .ok d ∧ evaluate_step d = .error e)

end ErrorFlow

/-! ## The inner adversarial training step (claim C1)

One iteration of the inner loop of `train_gan`, embedded with the network
parameters, the framework's forward functions and the Adam updates held
abstract; what the claim constrains — the order of the two updates and the
loss each one minimizes — is explicit. -/

namespace GanStep

/-- Parameter-update events of one inner-loop iteration, carrying the loss
value driving the update. -/
inductive Event where
  | disc_update (lossVal : ℝ)
  | gen_update (lossVal : ℝ)

/-- The loss of `torch.nn.BCELoss()` with default mean reduction: the mean
over all (output, target) pairs of `-(t * log o + (1 - t) * log (1 - o))`. -/
noncomputable def bce_loss (outputs targets : List ℝ) : ℝ :=
  (-((outputs.zip targets).map
      (fun p => p.2 * Real.log p.1 + (1 - p.2) * Real.log (1 - p.1))).sum) /
    ((outputs.zip targets).length : ℝ)

/-- Result of one inner-loop iteration: the parameters after the two
optimizer steps and the update events in execution order. -/
structure StepResult (PD PG : Type) where
  d_params : PD
  g_params : PG
  events : List Event

/-- One iteration of the simple GAN's inner loop (`simple_gan.py` lines
145-195).  `dF`/`gF` are the discriminator and generator forward functions
(per sample), `d_opt_step`/`g_opt_step` the framework's
`zero_grad`/`backward`/`step` updates for the given loss.  The discriminator
is updated first, on the BCE loss of its outputs on the real batch (targets
all 1) concatenated with its outputs on a generated batch (targets all 0);
then the generator is updated on the BCE loss of the updated discriminator's
outputs on a freshly generated batch against an all-ones target. -/
noncomputable def simple_gan_step {PD PG F N : Type}
    (dF : PD → F → ℝ) (gF : PG → N → F)
    (d_opt_step : PD → ℝ → PD) (g_opt_step : PG → ℝ → PG)
    (d0 : PD) (g0 : PG)
    (train_batch : List F) (noise1 noise2 : List N) : StepResult PD PG :=
  let real_outputs := train_batch.map (dF d0)
  let real_label := List.replicate train_batch.length (1 : ℝ)
  let fake_inputs := noise1.map (gF g0)
  let fake_outputs := fake_inputs.map (dF d0)
  let fake_label := List.replicate fake_inputs.length (0 : ℝ)
  let outputs := real_outputs ++ fake_outputs
  let targets := real_label ++ fake_label
  let D_loss := bce_loss outputs targets
  let d1 := d_opt_step d0 D_loss
  let fake_inputs2 := noise2.map (gF g0)
  let fake_outputs2 := fake_inputs2.map (dF d1)
  let fake_targets := List.replicate fake_inputs2.length (1 : ℝ)
  let G_loss := bce_loss fake_outputs2 fake_targets
  let g1 := g_opt_step g0 G_loss
  ⟨d1, g1, [Event.disc_update D_loss, Event.gen_update G_loss]⟩

/-- One iteration of the conditional inner loop, shared by `cgan.py` (lines
156-210) and `conditional_gan_multi.py` (lines 147-201): identical to the
simple step except that forwards take class labels, the real batch carries
its labels, and the same `fake_class_labels` are reused (with fresh noise)
for the generator update. -/
noncomputable def conditional_gan_step {PD PG F N L : Type}
    (dF : PD → F → L → ℝ) (gF : PG → N → L → F)
    (d_opt_step : PD → ℝ → PD) (g_opt_step : PG → ℝ → PG)
    (d0 : PD) (g0 : PG)
    (train_batch : List (F × L)) (fake_class_labels : List L)
    (noise1 noise2 : List N) : StepResult PD PG :=
  let real_outputs := train_batch.map (fun p => dF d0 p.1 p.2)
  let real_labels := List.replicate train_batch.length (1 : ℝ)
  let fake_inputs := (noise1.zip fake_class_labels).map (fun p => gF g0 p.1 p.2)
  let fake_outputs := (fake_inputs.zip fake_class_labels).map (fun p => dF d0 p.1 p.2)
  let fake_labels := List.replicate fake_inputs.length (0 : ℝ)
  let outputs := real_outputs ++ fake_outputs
  let targets := real_labels ++ fake_labels
  let D_loss := bce_loss outputs targets
  let d1 := d_opt_step d0 D_loss
  let fake_inputs2 := (noise2.zip fake_class_labels).map (fun p => gF g0 p.1 p.2)
  let fake_outputs2 := (fake_inputs2.zip fake_class_labels).map (fun p => dF d1 p.1 p.2)
  let fake_targets := List.replicate fake_inputs2.length (1 : ℝ)
  let G_loss := bce_loss fake_outputs2 fake_targets
  let g1 := g_opt_step g0 G_loss
  ⟨d1, g1, [Event.disc_update D_loss, Event.gen_update G_loss]⟩

end GanStep

/-! ## Generator network forward passes (claim C9) -/

namespace NN

/-- A fully connected (`torch.nn.Linear`) layer. -/
noncomputable def linear {ni no : ℕ} (W : Fin no → Fin ni → ℝ) (b : Fin no → ℝ)
    (x : Fin ni → ℝ) : Fin no → ℝ :=
  fun j => (∑ i, W j i * x i) + b j

/-- The `torch.nn.ReLU` activation. -/
def relu (x : ℝ) : ℝ := max x 0

/-- The `torch.nn.Sigmoid` activation. -/
noncomputable def sigmoid (x : ℝ) : ℝ := 1 / (1 + Real.exp (-x))

/-- Forward pass of the simple GAN's generator (`simple_gan.py` lines 50-63):
three linear layers of sizes 128→500→1000→310, ReLU after the first two, and
a final sigmoid on every component. -/
noncomputable def simple_generator_forward
    (W1 : Fin 500 → Fin 128 → ℝ) (b1 : Fin 500 → ℝ)
    (W2 : Fin 1000 → Fin 500 → ℝ) (b2 : Fin 1000 → ℝ)
    (W3 : Fin 310 → Fin 1000 → ℝ) (b3 : Fin 310 → ℝ)
    (x : Fin 128 → ℝ) : Fin 310 → ℝ :=
  let h1 := fun j => relu (linear W1 b1 x j)
  let h2 := fun j => relu (linear W2 b2 h1 j)
  fun j => sigmoid (linear W3 b3 h2 j)

/-- Forward pass of the conditional generators (`cgan.py` lines 57-80 with
`num_classes = 2`, `conditional_gan_multi.py` lines 59-82 with
`num_classes = 6`): the label's embedding row is concatenated to the noise,
then 128+c→500→1000→310 linear layers with ReLU between and a final
sigmoid. -/
noncomputable def conditional_generator_forward (c : ℕ)
    (label_emb : Fin c → Fin c → ℝ) (label : Fin c)
    (W1 : Fin 500 → Fin (128 + c) → ℝ) (b1 : Fin 500 → ℝ)
    (W2 : Fin 1000 → Fin 500 → ℝ) (b2 : Fin 1000 → ℝ)
    (W3 : Fin 310 → Fin 1000 → ℝ) (b3 : Fin 310 → ℝ)
    (z : Fin 128 → ℝ) : Fin 310 → ℝ :=
  let x := Fin.append z (label_emb label)
  let h1 := fun j => relu (linear W1 b1 x j)
  let h2 := fun j => relu (linear W2 b2 h1 j)
  fun j => sigmoid (linear W3 b3 h2 j)

end NN

/-! ## Synthetic-dataset assembly (claim C10) -/

namespace Synth

/-- The rows of the dataframe built by `generate_synthetic_samples` for a
request of `num_of_samples` rows: every step of the generation pipeline
(noise matrix of `num_of_samples` rows, generator forward, reshape, inverse
transform, label insertion, boolean rounding) is row-wise, so the dataframe
holds exactly one row per requested sample. -/
def generate_synthetic_samples_rows {Row : Type} (num_of_samples : ℕ)
    (mk_row : ℕ → Row) : List Row :=
  (List.range num_of_samples).map mk_row

/-- Embedding of `DataFrame.sample(frac=1)`: pandas draws all row positions
without replacement — an order `idx` on the positions — and returns the rows
in that order.  That `idx` enumerates each position exactly once is the
`Perm` hypothesis of the theorems below. -/
def sample_frac1 {Row : Type} (l : List Row) (idx : List ℕ) : List Row :=
  idx.filterMap l.get?

/-- `cgan.create_final_synthetic_dataset` (lines 293-311): concatenate the
bot and human synthetic dataframes and shuffle with `sample(frac=1)`. -/
def create_final_synthetic_dataset {Row : Type}
    (synthetic_data_bots synthetic_data_humans : List Row) (idx : List ℕ) :
    List Row :=
  sample_frac1 (synthetic_data_bots ++ synthetic_data_humans) idx

/-- `conditional_gan_multi.generate_samples_to_reach_30K_per_class` (lines
283-311): concatenate the six per-class synthetic dataframes and shuffle
with `sample(frac=1)`. -/
def generate_samples_to_reach_30K_per_class {Row : Type}
    (p0 p1 p2 p3 p4 p5 : List Row) (idx : List ℕ) : List Row :=
  sample_frac1 (p0 ++ p1 ++ p2 ++ p3 ++ p4 ++ p5) idx

end Synth

/-! ## The outer training loop (claim C4)

`train_gan` in every variant runs `for epoch in range(epochs)`, appends one
per-epoch mean (via `statistics.mean`) to each of three lists after every
epoch, and performs the single `torch.save` of the generator strictly after
the loop.  The loop is embedded parametrically in the per-iteration loss and
accuracy values (produced by the framework), which the claim does not
constrain. -/

namespace TrainLoop

/-- Trace events of `train_gan`: completion of one epoch of the outer loop,
and the `torch.save` of the trained generator. -/
inductive TraceEv where
  | epoch (i : ℕ)
  | save_generator (path : String)
  deriving DecidableEq, Repr

/-- Embedding of `statistics.mean`: raises `StatisticsError` on an empty
list, otherwise returns the arithmetic mean. -/
def stat_mean {α : Type} [DivisionRing α] : List α → Except String α
  | [] => .error "StatisticsError"
  | l => .ok (l.sum / (l.length : α))

/-- The batch indices of one epoch at which losses and accuracy are recorded
(`if idx % 100 == 0 or idx == len(train_loader)` with `idx` incremented to
run from 1), where `nb` is the number of batches of the training loader. -/
def tracked_indices (nb : ℕ) : List ℕ :=
  ((List.range nb).map (· + 1)).filter (fun idx => idx % 100 == 0 || idx == nb)

/-- One epoch of `train_gan`'s outer loop from the recording point of view:
`acc`, `epoch_D_loss` and `epoch_G_loss` collect values at the tracked
indices, and `statistics.mean` of each is taken (accuracy first, as in the
epoch-end `print`), failing if nothing was recorded. -/
def epoch_summary {α : Type} [DivisionRing α] (dL gL acc : ℕ → ℕ → α)
    (nb e : ℕ) : Except String (α × α × α) := do
  let aM ← stat_mean ((tracked_indices nb).map (acc e))
  let dM ← stat_mean ((tracked_indices nb).map (dL e))
  let gM ← stat_mean ((tracked_indices nb).map (gL e))
  .ok (dM, gM, aM)

/-- The outer loop of `train_gan` over the given number of epochs,
accumulating `mean_D_loss`, `mean_G_loss` and `D_acc` and the trace of
completed epochs. -/
def run_epochs {α : Type} [DivisionRing α] (dL gL acc : ℕ → ℕ → α) (nb : ℕ) :
    ℕ → Except String (List α × List α × List α × List TraceEv)
  | 0 => .ok ([], [], [], [])
  | e + 1 => do
    let (ds, gs, accs, tr) ← run_epochs dL gL acc nb e
    let (dM, gM, aM) ← epoch_summary dL gL acc nb e
    .ok (ds ++ [dM], gs ++ [gM], accs ++ [aM], tr ++ [.epoch e])

/-- Embedding of `train_gan` for the epoch/persistence claim: run the fixed
number of epochs, then `torch.save` the generator exactly once, after the
loop (`simple_gan.py` lines 140-233, `cgan.py` lines 151-244,
`conditional_gan_multi.py` lines 142-235). -/
def train_gan {α : Type} [DivisionRing α] (dL gL acc : ℕ → ℕ → α)
    (nb epochs : ℕ) (gen_path : String) :
    Except String (List α × List α × List α × List TraceEv) := do
  let (ds, gs, accs, tr) ← run_epochs dL gL acc nb epochs
  .ok (ds, gs, accs, tr ++ [.save_generator gen_path])

end TrainLoop

/-! ## Helper lemmas for the remaining claims -/

namespace ErrorFlow

/-- Reduction of `Except` bind on a success value. -/
theorem bind_ok_eq {E α β : Type} (a : α) (f : α → Except E β) :
    (Except.ok (ε := E) a >>= f) = f a := rfl

/-- Reduction of `Except` bind on an error value. -/
theorem bind_error_eq {E α β : Type} (e : E) (f : α → Except E β) :
    ((Except.error e : Except E α) >>= f) = Except.error e := rfl

end ErrorFlow

namespace TrainLoop

/-- With at least one batch in the loader, the recording indices of an epoch
are nonempty: the last batch index `nb` is always tracked. -/
theorem tracked_indices_ne_nil {nb : ℕ} (h : 0 < nb) :
    tracked_indices nb ≠ [] := by
  have hmem : nb ∈ tracked_indices nb := by
    unfold tracked_indices
    refine List.mem_filter.2 ⟨?_, by simp⟩
    refine List.mem_map.2 ⟨nb - 1, ?_, by omega⟩
    exact List.mem_range.2 (by omega)
  intro hnil
  rw [hnil] at hmem
  exact List.not_mem_nil _ hmem

/-- Computation of `statistics.mean` on a nonempty list. -/
theorem stat_mean_ok {α : Type} [DivisionRing α] {l : List α} (h : l ≠ []) :
    stat_mean l = .ok (l.sum / (l.length : α)) := by
  cases l with
  | nil => exact absurd rfl h
  | cons a l => rfl

/-- Each epoch summary succeeds when the loader has at least one batch. -/
theorem epoch_summary_ok {α : Type} [DivisionRing α]
    (dL gL acc : ℕ → ℕ → α) {nb : ℕ} (e : ℕ) (h : 0 < nb) :
    ∃ p, epoch_summary dL gL acc nb e = .ok p := by
  have hne : tracked_indices nb ≠ [] := tracked_indices_ne_nil h
  have hm : ∀ f : ℕ → α, (tracked_indices nb).map f ≠ [] := by
    intro f hc
    exact hne (List.map_eq_nil_iff.1 hc)
  unfold epoch_summary
  rw [stat_mean_ok (hm (acc e)), ErrorFlow.bind_ok_eq,
    stat_mean_ok (hm (dL e)), ErrorFlow.bind_ok_eq,
    stat_mean_ok (hm (gL e)), ErrorFlow.bind_ok_eq]
  exact ⟨_, rfl⟩

/-- The outer loop over `e` epochs succeeds and produces one entry per epoch
in each list and one `epoch` trace event per epoch, in order. -/
theorem run_epochs_ok {α : Type} [DivisionRing α]
    (dL gL acc : ℕ → ℕ → α) {nb : ℕ} (h : 0 < nb) (e : ℕ) :
    ∃ ds gs accs, run_epochs dL gL acc nb e =
        .ok (ds, gs, accs, (List.range e).map TraceEv.epoch) ∧
      ds.length = e ∧ gs.length = e ∧ accs.length = e := by
  induction e with
  | zero => exact ⟨[], [], [], rfl, rfl, rfl, rfl⟩
  | succ e ih =>
    obtain ⟨ds, gs, accs, heq, hd, hg, ha⟩ := ih
    obtain ⟨⟨dM, gM, aM⟩, hp⟩ := epoch_summary_ok dL gL acc e h
    refine ⟨ds ++ [dM], gs ++ [gM], accs ++ [aM], ?_, by simp [hd], by simp [hg],
      by simp [ha]⟩
    simp only [run_epochs]
    rw [heq, ErrorFlow.bind_ok_eq, hp, ErrorFlow.bind_ok_eq]
    simp [List.range_succ]

end TrainLoop

namespace NN

/-- The sigmoid of any real number lies strictly between 0 and 1. -/
theorem sigmoid_bounds (x : ℝ) : 0 < sigmoid x ∧ sigmoid x < 1 := by
  have he := Real.exp_pos (-x)
  have hd : (0:ℝ) < 1 + Real.exp (-x) := by linarith
  unfold sigmoid
  constructor
  · exact div_pos one_pos hd
  · rw [div_lt_one hd]
    linarith

end NN

namespace Synth

/-- Reading every position of a list in ascending order returns the list. -/
theorem filterMap_get_range {Row : Type} (l : List Row) :
    (List.range l.length).filterMap l.get? = l := by
  induction l with
  | nil => rfl
  | cons a t ih =>
    have hcomp : (a :: t).get? ∘ Nat.succ = t.get? := by
      funext i
      rfl
    simp [List.range_succ_eq_map, List.filterMap_cons, List.filterMap_map,
      hcomp, ih]

/-- `sample(frac=1)` with any without-replacement position order returns a
permutation of the rows. -/
theorem sample_frac1_perm {Row : Type} (l : List Row) (idx : List ℕ)
    (h : idx.Perm (List.range l.length)) :
    (sample_frac1 l idx).Perm l := by
  have hp := List.Perm.filterMap l.get? h
  rw [filterMap_get_range l] at hp
  exact hp

end Synth

/-! ## Theorems for claims C3 and C5 -/

/-- C3 counterexample: the execution `simple_gan.train_gan(bots=True)` writes
the joblib-serialized scaler and the pickled test split, neither of which is
a torch-save write; so the saved generator model is not the only file
written. -/
theorem c3_counterexample_non_torch_writes :
    FileWrite.mk "simple_gan/scaler.save" FileFormat.joblib ∈
      SimpleGan.train_gan_writes true ∧
    FileFormat.joblib ≠ FileFormat.torch_save ∧
    FileWrite.mk "simple_gan/test_data" FileFormat.pickle ∈
      SimpleGan.train_gan_writes true ∧
    FileFormat.pickle ≠ FileFormat.torch_save := by
  decide

/-- C3 amended: besides the torch-saved generator — written exactly once per
`train_gan` run — the pipeline also writes the pickled test split and the
joblib-serialized scaler during data preparation, PNG loss/accuracy plots
during training, and pickled synthetic datasets during generation; every
write uses one of these four formats, and no generation function performs a
torch-save write. -/
theorem c3_amended_write_inventory (bots t : Bool) (n : ℕ) :
    (∀ w ∈ SimpleGan.train_gan_writes bots,
      w.fmt = FileFormat.pickle ∨ w.fmt = FileFormat.joblib ∨
      w.fmt = FileFormat.png ∨ w.fmt = FileFormat.torch_save) ∧
    (SimpleGan.train_gan_writes bots).countP
      (fun w => w.fmt == FileFormat.torch_save) = 1 ∧
    CGan.train_gan_writes.countP (fun w => w.fmt == FileFormat.torch_save) = 1 ∧
    CGanMulti.train_gan_writes.countP
      (fun w => w.fmt == FileFormat.torch_save) = 1 ∧
    (∀ w ∈ SimpleGan.generate_synthetic_samples_writes n bots,
      w.fmt ≠ FileFormat.torch_save) ∧
    (∀ w ∈ CGan.create_final_synthetic_dataset_writes t,
      w.fmt ≠ FileFormat.torch_save) ∧
    (∀ w ∈ CGanMulti.generate_samples_to_reach_30K_per_class_writes,
      w.fmt ≠ FileFormat.torch_save) := by
  have htrain : ∀ w ∈ SimpleGan.train_gan_writes bots,
      w.fmt = FileFormat.pickle ∨ w.fmt = FileFormat.joblib ∨
      w.fmt = FileFormat.png ∨ w.fmt = FileFormat.torch_save := by
    intro w hw
    cases bots <;>
      simp [SimpleGan.train_gan_writes, SimpleGan.prepare_data_writes] at hw <;>
      rcases hw with h | h | h | h | h <;> simp [h]
  have hgen : ∀ w ∈ SimpleGan.generate_synthetic_samples_writes n bots,
      w.fmt ≠ FileFormat.torch_save := by
    intro w hw
    cases bots <;>
      simp [SimpleGan.generate_synthetic_samples_writes,
        SimpleGan.prepare_data_writes] at hw <;>
      rcases hw with h | h | h <;> simp [h]
  refine ⟨htrain, ?_, by decide, by decide, hgen, ?_, by decide⟩
  · cases bots <;> decide
  · cases t <;> decide

/-- C5: an error raised by the first failing step of the pipeline propagates
unchanged to the end of the script — the result is exactly that error, so no
later step and no fallback path runs. -/
theorem c5_error_propagation {E α β γ δ ε : Type}
    (load_data : Except E α) (scale_data : α → Except E β)
    (train_step : β → Except E γ) (generate_step : γ → Except E δ)
    (evaluate_step : δ → Except E ε) (e : E)
    (h : ErrorFlow.fails_first load_data scale_data train_step generate_step
      evaluate_step e) :
    ErrorFlow.script_flow load_data scale_data train_step generate_step
      evaluate_step = .error e := by
  rcases h with h | ⟨a, ha, h⟩ | ⟨a, b, ha, hb, h⟩ | ⟨a, b, c, ha, hb, hc, h⟩ |
    ⟨a, b, c, d, ha, hb, hc, hd, h⟩ <;>
    simp only [ErrorFlow.script_flow, ErrorFlow.bind_ok_eq, ErrorFlow.bind_error_eq, *]

/-- C5 witness: a concrete pipeline whose training step raises
`RuntimeError` while loading and scaling succeed; the script's result is that
very error. -/
theorem c5_error_propagation_witness :
    ErrorFlow.fails_first (E := String) (Except.ok ()) (fun _ => Except.ok ())
      (fun _ : Unit => Except.error "RuntimeError")
      (fun _ : Unit => Except.ok ()) (fun _ : Unit => Except.ok ())
      "RuntimeError" ∧
    ErrorFlow.script_flow (E := String) (Except.ok ()) (fun _ => Except.ok ())
      (fun _ : Unit => Except.error "RuntimeError")
      (fun _ : Unit => Except.ok ()) (fun _ : Unit => Except.ok ()) =
      Except.error "RuntimeError" :=
  ⟨Or.inr (Or.inr (Or.inl ⟨(), (), rfl, rfl, rfl⟩)),
   c5_error_propagation _ _ _ _ _ _
     (Or.inr (Or.inr (Or.inl ⟨(), (), rfl, rfl, rfl⟩)))⟩

/-! ## Theorems for claims C2, C6, C7, C8 -/

/-- C2: the claim asserts that the scaler loaded at generation time is the one
stored by the same variant's `prepare_data`.  The code violates this for the
multiclass variant: `conditional_gan_multi.generate_synthetic_samples` loads
`conditional_gan/scaler.save` — the binary variant's scaler file — although
`conditional_gan_multi.prepare_data` stored the fitted scaler at
`conditional_gan_multi/scaler.save`, contradicting the code's own comments
("Store scaler for later use" / "Load saved min_max_scaler ... of the
generated data").  The other two variants load the path they stored. -/
theorem c2_scaler_path_mismatch :
    scaler_load_path Variant.conditional_gan_multi ≠
      scaler_store_path Variant.conditional_gan_multi ∧
    scaler_load_path Variant.conditional_gan_multi = scaler_store_path Variant.cgan ∧
    scaler_load_path Variant.simple_gan = scaler_store_path Variant.simple_gan ∧
    scaler_load_path Variant.cgan = scaler_store_path Variant.cgan := by
  refine ⟨?_, rfl, rfl, rfl⟩
  decide

/-- C6: the simple GAN maps `human` to 0 and both `bot` and `cyborg` to 1,
and for every input dataset the rows retained for training with `bots=True`
are exactly those originally labeled `bot` or `cyborg`, while with
`bots=False` they are exactly those originally labeled `human`. -/
theorem c6_label_mapping_and_filter :
    SimpleGan.label_map "human" = some 0 ∧
    SimpleGan.label_map "bot" = some 1 ∧
    SimpleGan.label_map "cyborg" = some 1 ∧
    (∀ rows : List SimpleGan.Row,
      SimpleGan.filter_training_rows rows true =
        rows.filter (fun r => r.label == "bot" || r.label == "cyborg")) ∧
    (∀ rows : List SimpleGan.Row,
      SimpleGan.filter_training_rows rows false =
        rows.filter (fun r => r.label == "human")) := by
  refine ⟨rfl, rfl, rfl, ?_, ?_⟩ <;>
    · intro rows
      unfold SimpleGan.filter_training_rows
      refine List.filter_congr ?_
      intro r _
      unfold SimpleGan.label_map
      by_cases h1 : r.label = "human" <;> by_cases h2 : r.label = "bot" <;>
        by_cases h3 : r.label = "cyborg" <;> simp_all

/-- C7: every component of a latent noise vector computed as
`(u - 0.5) / 0.5` from a uniform sample `u` with components in the interval
from 0 (inclusive) to 1 (exclusive) lies in the half-open interval from -1
(inclusive) to 1 (exclusive). -/
theorem c7_noise_range (u : Fin 128 → ℚ)
    (h : ∀ i, 0 ≤ u i ∧ u i < 1) :
    ∀ i, -1 ≤ noise_vector u i ∧ noise_vector u i < 1 := by
  intro i
  have h0 := (h i).1
  have h1 := (h i).2
  unfold noise_vector noise_component
  constructor <;> [nlinarith; nlinarith]

/-- C7 witness: the bounds hold at the concrete uniform sample with every
component 1/4, whose noise transform is -1/2. -/
theorem c7_noise_range_witness :
    (∀ i : Fin 128, 0 ≤ (fun _ : Fin 128 => (1:ℚ)/4) i ∧
      (fun _ : Fin 128 => (1:ℚ)/4) i < 1) ∧
    (∀ i, -1 ≤ noise_vector (fun _ => (1:ℚ)/4) i ∧
      noise_vector (fun _ => (1:ℚ)/4) i < 1) :=
  ⟨fun _ => ⟨by norm_num, by norm_num⟩,
   c7_noise_range (fun _ => (1:ℚ)/4) (fun _ => ⟨by norm_num, by norm_num⟩)⟩

/-- C8: with the default `num_of_classes = 2`, the binary conditional GAN's
generation-time label draw can only produce 1 when `bots=True` and only 0
when `bots=False`, and the multiclass variant's draw from
`(label, label + 1)` can only produce `label`; hence no other value appears
in the generated label column. -/
theorem c8_generation_labels_constant (k m n label : ℕ) :
    (randint_draw (cgan_label_bounds true 2).1 (cgan_label_bounds true 2).2 k →
      k = 1) ∧
    (randint_draw (cgan_label_bounds false 2).1 (cgan_label_bounds false 2).2 m →
      m = 0) ∧
    (randint_draw (multi_label_bounds label).1 (multi_label_bounds label).2 n →
      n = label) := by
  refine ⟨?_, ?_, ?_⟩ <;> rintro ⟨hlo, hhi⟩ <;> simp_all [cgan_label_bounds, multi_label_bounds] <;> omega

/-- C8 witness: the three implications applied at the concrete draws 1, 0 and
3 (for `label = 3`), each inside its `torch.randint` range. -/
theorem c8_generation_labels_constant_witness :
    (randint_draw (cgan_label_bounds true 2).1 (cgan_label_bounds true 2).2 1 ∧ 1 = 1) ∧
    (randint_draw (cgan_label_bounds false 2).1 (cgan_label_bounds false 2).2 0 ∧ 0 = 0) ∧
    (randint_draw (multi_label_bounds 3).1 (multi_label_bounds 3).2 3 ∧ 3 = 3) :=
  ⟨⟨by decide, (c8_generation_labels_constant 1 0 3 3).1 (by decide)⟩,
   ⟨by decide, (c8_generation_labels_constant 1 0 3 3).2.1 (by decide)⟩,
   ⟨by decide, (c8_generation_labels_constant 1 0 3 3).2.2 (by decide)⟩⟩



/-! ## Theorems for claims C1, C4, C9, C10 -/

/-- C1: in one iteration of the inner training loop — in both the simple and
the conditional (binary and multiclass) variants — the event list consists of
exactly one discriminator update followed by exactly one generator update:
the discriminator's loss is the BCE loss of its outputs on the real batch
concatenated with its outputs on a generated batch against targets of all
ones then all zeros, and the generator's loss is the BCE loss of the
(already updated) discriminator's outputs on a freshly generated batch
against an all-ones target. -/
theorem c1_discriminator_then_generator {PD PG F N L : Type}
    (dF : PD → F → ℝ) (gF : PG → N → F)
    (dFc : PD → F → L → ℝ) (gFc : PG → N → L → F)
    (d_opt_step : PD → ℝ → PD) (g_opt_step : PG → ℝ → PG)
    (d0 : PD) (g0 : PG) (train_batch : List F)
    (train_batchc : List (F × L)) (fake_class_labels : List L)
    (noise1 noise2 : List N) :
    (∃ dl gl,
      (GanStep.simple_gan_step dF gF d_opt_step g_opt_step d0 g0 train_batch
          noise1 noise2).events =
        [GanStep.Event.disc_update dl, GanStep.Event.gen_update gl] ∧
      dl = GanStep.bce_loss
          (train_batch.map (dF d0) ++ (noise1.map (gF g0)).map (dF d0))
          (List.replicate train_batch.length 1 ++
            List.replicate (noise1.map (gF g0)).length 0) ∧
      gl = GanStep.bce_loss
          ((noise2.map (gF g0)).map (dF (d_opt_step d0 dl)))
          (List.replicate (noise2.map (gF g0)).length 1)) ∧
    (∃ dl gl,
      (GanStep.conditional_gan_step dFc gFc d_opt_step g_opt_step d0 g0
          train_batchc fake_class_labels noise1 noise2).events =
        [GanStep.Event.disc_update dl, GanStep.Event.gen_update gl] ∧
      dl = GanStep.bce_loss
          (train_batchc.map (fun p => dFc d0 p.1 p.2) ++
            (((noise1.zip fake_class_labels).map
                (fun p => gFc g0 p.1 p.2)).zip fake_class_labels).map
              (fun p => dFc d0 p.1 p.2))
          (List.replicate train_batchc.length 1 ++
            List.replicate ((noise1.zip fake_class_labels).map
              (fun p => gFc g0 p.1 p.2)).length 0) ∧
      gl = GanStep.bce_loss
          ((((noise2.zip fake_class_labels).map
              (fun p => gFc g0 p.1 p.2)).zip fake_class_labels).map
            (fun p => dFc (d_opt_step d0 dl) p.1 p.2))
          (List.replicate ((noise2.zip fake_class_labels).map
            (fun p => gFc g0 p.1 p.2)).length 1)) :=
  ⟨⟨_, _, rfl, rfl, rfl⟩, ⟨_, _, rfl, rfl, rfl⟩⟩

/-- C4: for every number of epochs, `train_gan` runs exactly that many
epochs over the (nonempty) training loader and terminates normally; the
per-epoch mean-loss and accuracy lists have exactly one entry per epoch, and
the generator is saved exactly once, strictly after the last epoch. -/
theorem c4_fixed_epochs_single_save {α : Type} [DivisionRing α]
    (dL gL acc : ℕ → ℕ → α) (nb epochs : ℕ) (gen_path : String)
    (h : 0 < nb) :
    ∃ ds gs accs,
      TrainLoop.train_gan dL gL acc nb epochs gen_path =
        .ok (ds, gs, accs,
          (List.range epochs).map TrainLoop.TraceEv.epoch ++
            [TrainLoop.TraceEv.save_generator gen_path]) ∧
      ds.length = epochs ∧ gs.length = epochs ∧ accs.length = epochs := by
  obtain ⟨ds, gs, accs, heq, hd, hg, ha⟩ :=
    TrainLoop.run_epochs_ok dL gL acc h epochs
  refine ⟨ds, gs, accs, ?_, hd, hg, ha⟩
  unfold TrainLoop.train_gan
  rw [heq, ErrorFlow.bind_ok_eq]

/-- C4 witness: a concrete run with a 3-batch loader and 2 epochs, constant
loss and accuracy values, saving to the simple GAN's bot-generator path. -/
theorem c4_fixed_epochs_single_save_witness :
    0 < 3 ∧
    ∃ ds gs accs,
      TrainLoop.train_gan (α := ℚ) (fun _ _ => 0) (fun _ _ => 0)
          (fun _ _ => 1) 3 2 "simple_gan/Bot_Generator_save.pth" =
        .ok (ds, gs, accs,
          (List.range 2).map TrainLoop.TraceEv.epoch ++
            [TrainLoop.TraceEv.save_generator
              "simple_gan/Bot_Generator_save.pth"]) ∧
      ds.length = 2 ∧ gs.length = 2 ∧ accs.length = 2 :=
  ⟨by decide,
   c4_fixed_epochs_single_save (fun _ _ => 0) (fun _ _ => 0) (fun _ _ => 1)
     3 2 "simple_gan/Bot_Generator_save.pth" (by decide)⟩

/-- C9: every component of the output of a generator forward pass lies
strictly between 0 and 1, for the simple generator and for the conditional
generators of both the binary (2 classes) and multiclass (6 classes)
variants, whatever the weights, biases, embeddings, label and input. -/
theorem c9_generator_output_open_unit_interval :
    (∀ (W1 : Fin 500 → Fin 128 → ℝ) (b1 : Fin 500 → ℝ)
      (W2 : Fin 1000 → Fin 500 → ℝ) (b2 : Fin 1000 → ℝ)
      (W3 : Fin 310 → Fin 1000 → ℝ) (b3 : Fin 310 → ℝ)
      (x : Fin 128 → ℝ) (j : Fin 310),
      0 < NN.simple_generator_forward W1 b1 W2 b2 W3 b3 x j ∧
        NN.simple_generator_forward W1 b1 W2 b2 W3 b3 x j < 1) ∧
    (∀ (c : ℕ) (label_emb : Fin c → Fin c → ℝ) (label : Fin c)
      (W1 : Fin 500 → Fin (128 + c) → ℝ) (b1 : Fin 500 → ℝ)
      (W2 : Fin 1000 → Fin 500 → ℝ) (b2 : Fin 1000 → ℝ)
      (W3 : Fin 310 → Fin 1000 → ℝ) (b3 : Fin 310 → ℝ)
      (z : Fin 128 → ℝ) (j : Fin 310),
      0 < NN.conditional_generator_forward c label_emb label W1 b1 W2 b2 W3 b3
            z j ∧
        NN.conditional_generator_forward c label_emb label W1 b1 W2 b2 W3 b3
            z j < 1) := by
  constructor
  · intro W1 b1 W2 b2 W3 b3 x j
    exact NN.sigmoid_bounds _
  · intro c label_emb label W1 b1 W2 b2 W3 b3 z j
    exact NN.sigmoid_bounds _

/-- C10: the final synthetic datasets are permutations of the concatenation
of their per-class parts — `sample(frac=1)` neither adds, drops nor alters a
row — and their row counts equal the sums of the requested per-class counts:
60000 for the default binary case (30000 bots + 30000 humans) and 126912 for
the multiclass reach-30K-per-class case. -/
theorem c10_final_dataset_is_permutation {Row : Type}
    (mk_bot mk_human mk0 mk1 mk2 mk3 mk4 mk5 : ℕ → Row) (idx idx2 : List ℕ)
    (h : idx.Perm (List.range
      (Synth.generate_synthetic_samples_rows 30000 mk_bot ++
        Synth.generate_synthetic_samples_rows 30000 mk_human).length))
    (h2 : idx2.Perm (List.range
      (Synth.generate_synthetic_samples_rows (30000 - 24403) mk0 ++
        Synth.generate_synthetic_samples_rows (30000 - 9333) mk1 ++
        Synth.generate_synthetic_samples_rows (30000 - 408) mk2 ++
        Synth.generate_synthetic_samples_rows (30000 - 13283) mk3 ++
        Synth.generate_synthetic_samples_rows (30000 - 958) mk4 ++
        Synth.generate_synthetic_samples_rows (30000 - 4703) mk5).length)) :
    ((Synth.create_final_synthetic_dataset
        (Synth.generate_synthetic_samples_rows 30000 mk_bot)
        (Synth.generate_synthetic_samples_rows 30000 mk_human) idx).Perm
      (Synth.generate_synthetic_samples_rows 30000 mk_bot ++
        Synth.generate_synthetic_samples_rows 30000 mk_human)) ∧
    (Synth.create_final_synthetic_dataset
        (Synth.generate_synthetic_samples_rows 30000 mk_bot)
        (Synth.generate_synthetic_samples_rows 30000 mk_human) idx).length =
      60000 ∧
    ((Synth.generate_samples_to_reach_30K_per_class
        (Synth.generate_synthetic_samples_rows (30000 - 24403) mk0)
        (Synth.generate_synthetic_samples_rows (30000 - 9333) mk1)
        (Synth.generate_synthetic_samples_rows (30000 - 408) mk2)
        (Synth.generate_synthetic_samples_rows (30000 - 13283) mk3)
        (Synth.generate_synthetic_samples_rows (30000 - 958) mk4)
        (Synth.generate_synthetic_samples_rows (30000 - 4703) mk5) idx2).Perm
      (Synth.generate_synthetic_samples_rows (30000 - 24403) mk0 ++
        Synth.generate_synthetic_samples_rows (30000 - 9333) mk1 ++
        Synth.generate_synthetic_samples_rows (30000 - 408) mk2 ++
        Synth.generate_synthetic_samples_rows (30000 - 13283) mk3 ++
        Synth.generate_synthetic_samples_rows (30000 - 958) mk4 ++
        Synth.generate_synthetic_samples_rows (30000 - 4703) mk5)) ∧
    (Synth.generate_samples_to_reach_30K_per_class
        (Synth.generate_synthetic_samples_rows (30000 - 24403) mk0)
        (Synth.generate_synthetic_samples_rows (30000 - 9333) mk1)
        (Synth.generate_synthetic_samples_rows (30000 - 408) mk2)
        (Synth.generate_synthetic_samples_rows (30000 - 13283) mk3)
        (Synth.generate_synthetic_samples_rows (30000 - 958) mk4)
        (Synth.generate_synthetic_samples_rows (30000 - 4703) mk5) idx2).length =
      126912 := by
  unfold Synth.create_final_synthetic_dataset
    Synth.generate_samples_to_reach_30K_per_class
  have hb := Synth.sample_frac1_perm _ idx h
  have hm := Synth.sample_frac1_perm _ idx2 h2
  refine ⟨hb, ?_, hm, ?_⟩
  · rw [hb.length_eq]
    simp [Synth.generate_synthetic_samples_rows]
  · rw [hm.length_eq]
    simp [Synth.generate_synthetic_samples_rows]

/-- C10 witness: concrete natural-number rows and the identity position
order; the final binary dataset has 60000 rows and the multiclass one
126912. -/
theorem c10_final_dataset_is_permutation_witness :
    (List.range 60000).Perm (List.range
      (Synth.generate_synthetic_samples_rows 30000 (fun i => i) ++
        Synth.generate_synthetic_samples_rows 30000 (fun i => i + 1)).length) ∧
    (Synth.create_final_synthetic_dataset
        (Synth.generate_synthetic_samples_rows 30000 (fun i => i))
        (Synth.generate_synthetic_samples_rows 30000 (fun i => i + 1))
        (List.range 60000)).length = 60000 ∧
    (Synth.generate_samples_to_reach_30K_per_class
        (Synth.generate_synthetic_samples_rows (30000 - 24403) (fun i => i))
        (Synth.generate_synthetic_samples_rows (30000 - 9333) (fun i => i))
        (Synth.generate_synthetic_samples_rows (30000 - 408) (fun i => i))
        (Synth.generate_synthetic_samples_rows (30000 - 13283) (fun i => i))
        (Synth.generate_synthetic_samples_rows (30000 - 958) (fun i => i))
        (Synth.generate_synthetic_samples_rows (30000 - 4703) (fun i => i))
        (List.range 126912)).length = 126912 := by
  have h : (List.range 60000).Perm (List.range
      (Synth.generate_synthetic_samples_rows 30000 (fun i : ℕ => i) ++
        Synth.generate_synthetic_samples_rows 30000 (fun i => i + 1)).length) := by
    have hl : (Synth.generate_synthetic_samples_rows 30000 (fun i : ℕ => i) ++
        Synth.generate_synthetic_samples_rows 30000 (fun i => i + 1)).length =
        60000 := by
      simp only [Synth.generate_synthetic_samples_rows, List.length_append,
        List.length_map, List.length_range]
    rw [hl]
  have h2 : (List.range 126912).Perm (List.range
      (Synth.generate_synthetic_samples_rows (30000 - 24403) (fun i : ℕ => i) ++
        Synth.generate_synthetic_samples_rows (30000 - 9333) (fun i => i) ++
        Synth.generate_synthetic_samples_rows (30000 - 408) (fun i => i) ++
        Synth.generate_synthetic_samples_rows (30000 - 13283) (fun i => i) ++
        Synth.generate_synthetic_samples_rows (30000 - 958) (fun i => i) ++
        Synth.generate_synthetic_samples_rows (30000 - 4703) (fun i => i)).length) := by
    have hl : (Synth.generate_synthetic_samples_rows (30000 - 24403) (fun i : ℕ => i) ++
        Synth.generate_synthetic_samples_rows (30000 - 9333) (fun i => i) ++
        Synth.generate_synthetic_samples_rows (30000 - 408) (fun i => i) ++
        Synth.generate_synthetic_samples_rows (30000 - 13283) (fun i => i) ++
        Synth.generate_synthetic_samples_rows (30000 - 958) (fun i => i) ++
        Synth.generate_synthetic_samples_rows (30000 - 4703) (fun i => i)).length =
        126912 := by
      simp only [Synth.generate_synthetic_samples_rows, List.length_append,
        List.length_map, List.length_range]
    rw [hl]
  obtain ⟨-, hlen, -, hlen2⟩ :=
    c10_final_dataset_is_permutation (fun i => i) (fun i => i + 1)
      (fun i => i) (fun i => i) (fun i => i) (fun i => i) (fun i => i)
      (fun i => i) (List.range 60000) (List.range 126912) h h2
  exact ⟨h, hlen, hlen2⟩
